import Mathlib

/-!
# PlatformDefs.h: conditional compilation of the assertion and attribute shims

A shallow embedding of `src/modules/beast_core/system/PlatformDefs.h`.

The header is a chain of preprocessor conditionals.  Its input is the set of
names the including translation unit (or the command line) has defined before
the header is read; its output is the text each of its names expands to.  The
embedding follows that shape:

* `Predefined` is the input: one field per name the header tests;
* each name the header defines is a Lean function of `Predefined` with the same
  name, whose body follows the `#if` / `#elif` / `#else` chain of the source;
* block-like expansions (`bassert`, `bassertfalse`, `DBG`) are values of a
  small statement type `Stmt`, and `run` gives the sequence of calls a
  statement makes, given the value of the asserted expression and the answer
  of `beast::beast_isRunningUnderDebugger()`;
* attribute-like expansions (`BEAST_ALIGN`, `BEAST_DEPRECATED`) are token lists.
-/

namespace PlatformDefs

/-! ## Preprocessor names -/

/-- State of one preprocessor name before the header is read: `none` when the
name is not defined, `some v` when it is defined with the integer value `v`
(`-DNAME=v`; a bare `-DNAME` gives the value 1).  These are the definitions the
`#if` lines of the header can evaluate. -/
abbrev Flag := Option Int

/-- Value of a name inside an `#if` expression: a name that is not defined
counts as 0. -/
def ppValue (m : Flag) : Int :=
  match m with
  | none => 0
  | some v => v

/-- Truth of `#if NAME`: the value is not zero. -/
def ppIf (m : Flag) : Bool := ppValue m != 0

/-- Truth of `#ifdef NAME` and of `defined (NAME)`. -/
def ppDefined (m : Flag) : Bool := m.isSome

/-- The names the header tests, as the including translation unit left them.
Defaults describe a translation unit that defined none of them. -/
structure Predefined where
  /-- Lines 29-34. -/
  BEAST_FORCE_DEBUG : Flag := none
  BEAST_DEBUG : Flag := none
  /-- Lines 38, 198, 204, 219. -/
  BEAST_MSVC : Flag := none
  /-- Lines 48, 123. -/
  BEAST_LOG_ASSERTIONS : Flag := none
  /-- Line 54. -/
  BEAST_IOS : Flag := none
  BEAST_LINUX : Flag := none
  BEAST_ANDROID : Flag := none
  BEAST_PPC : Flag := none
  /-- Line 61. -/
  BEAST_USE_INTRINSICS : Flag := none
  /-- Line 66. -/
  BEAST_GCC : Flag := none
  BEAST_MAC : Flag := none
  /-- Line 67. -/
  BEAST_NO_INLINE_ASM : Flag := none
  /-- Lines 76, 259. -/
  BEAST_CLANG : Flag := none
  /-- Truth of `defined (__has_feature)`, lines 76 and 259. -/
  __has_feature : Bool := false
  /-- Truth of `defined (BEAST_ANALYZER_NORETURN)` before the header, lines 76 and 83. -/
  BEAST_ANALYZER_NORETURN : Bool := false
  /-- Answer of `__has_feature (attribute_analyzer_noreturn)`, line 77. -/
  attribute_analyzer_noreturn : Bool := false
  /-- Lines 89, 133, 158, 191, 204, 216, 229, 242, 289, 299, 306.  The name is
  set for the documentation-extraction pass, under which the header is read
  for its comments and not compiled (lines 133-139, 158-161 and 216-218 leave
  out or blank what a compiler needs); a build configuration has it off. -/
  DOXYGEN : Flag := none
  /-- Lines 219, 221. -/
  BEAST_NO_DEPRECATION_WARNINGS : Flag := none
  /-- Truth of `defined (__GXX_EXPERIMENTAL_CXX0X__)`, line 250. -/
  __GXX_EXPERIMENTAL_CXX0X__ : Bool := false
  /-- Lines 250, 254. -/
  __GNUC__ : Flag := none
  __GNUC_MINOR__ : Flag := none
  /-- Answers of `__has_feature (cxx_nullptr)`, `(cxx_noexcept)`,
  `(cxx_rvalue_references)`, lines 260-268. -/
  cxx_nullptr : Bool := false
  cxx_noexcept : Bool := false
  cxx_rvalue_references : Bool := false
  /-- Lines 277, 282, 294. -/
  _MSC_VER : Flag := none
  /-- The capability names as the includer left them, lines 250-309. -/
  BEAST_COMPILER_SUPPORTS_NOEXCEPT : Flag := none
  BEAST_COMPILER_SUPPORTS_NULLPTR : Flag := none
  BEAST_COMPILER_SUPPORTS_MOVE_SEMANTICS : Flag := none
  BEAST_COMPILER_SUPPORTS_OVERRIDE_AND_FINAL : Flag := none
  BEAST_COMPILER_SUPPORTS_ARC : Flag := none
  deriving DecidableEq, Repr

/-! ## Statements and their runs -/

/-- The five bodies `beast_breakDebugger` can expand to, lines 54-74. -/
inductive BreakBackend where
  /-- Line 60: a block calling `::kill (0, SIGTRAP)`. -/
  | kill_SIGTRAP
  /-- Line 65: a block calling the `__debugbreak()` intrinsic. -/
  | debugbreak
  /-- Line 68: the empty block. -/
  | emptyBody
  /-- Line 70: a block holding `asm ("int $3")`. -/
  | asm_int_dollar_3
  /-- Line 73: a block holding `__asm int 3`. -/
  | asm_int_3
  deriving DecidableEq, Repr

/-- What `BEAST_ANALYZER_NORETURN` expands to, lines 76-85. -/
inductive AnalyzerHook where
  /-- The includer defined the name before the header; its text is kept. -/
  | predefined
  /-- Line 79: a call of `beast_assert_noreturn()`, a function with an empty body (line 78). -/
  | beast_assert_noreturn
  /-- Line 84: no tokens. -/
  | noTokens
  deriving DecidableEq, Repr

/-- Statements the expansions of `DBG`, `bassertfalse` and `bassert` are built from. -/
inductive Stmt where
  /-- No tokens, or an empty statement (a lone semicolon). -/
  | nothing
  /-- A brace-enclosed block. -/
  | block (body : Stmt)
  /-- Two statements in sequence. -/
  | seq (first second : Stmt)
  /-- The statement `if (! (expression)) body`, where `expression` is the text
  of the argument handed to `bassert`. -/
  | ifNot (expression : String) (body : Stmt)
  /-- The statement `if (beast::beast_isRunningUnderDebugger()) body`. -/
  | ifDebugger (body : Stmt)
  /-- The call `beast::logAssertion (__FILE__, __LINE__);` at the given place. -/
  | logAssertion (file : String) (line : Nat)
  /-- The call `fatal_error(#expression);` with the stringified expression. -/
  | fatal_error (text : String)
  /-- The expansion of `beast_breakDebugger`. -/
  | breakDebugger (backend : BreakBackend)
  /-- The expansion of `BEAST_ANALYZER_NORETURN`. -/
  | analyzerNoreturn (hook : AnalyzerHook)
  /-- The three statements of line 95: declare `tempDbgBuf`, stream `dbgtext`
  into it, hand it to `beast::Logger::outputDebugString`. -/
  | outputDebugString (dbgtext : String)
  deriving DecidableEq, Repr

/-- What a run of a statement does that is visible outside the statement. -/
inductive Event where
  /-- The expression handed to `bassert` was evaluated. -/
  | evaluated (expression : String)
  /-- The call `beast::logAssertion (file, line)` was made. -/
  | logAssertion (file : String) (line : Nat)
  /-- The call `beast::beast_isRunningUnderDebugger()` was made. -/
  | debuggerQueried
  /-- The body of `beast_breakDebugger` was entered, with the given backend. -/
  | breakDebugger (backend : BreakBackend)
  /-- The call `fatal_error (text)` was made. -/
  | fatal_error (text : String)
  /-- The text `BEAST_ANALYZER_NORETURN` stands for was reached. -/
  | analyzerNoreturn (hook : AnalyzerHook)
  /-- The call `beast::Logger::outputDebugString` was made with the streamed text. -/
  | outputDebugString (dbgtext : String)
  deriving DecidableEq, Repr

/-- The events of one run of a statement, in order.  `value` is what the
asserted expression evaluates to, `attached` is what
`beast::beast_isRunningUnderDebugger()` returns.  The functions called
(`beast::logAssertion`, `fatal_error`, the debugger query, the logger) are
declared outside this header; a run records the call and goes on. -/
def run (value attached : Bool) : Stmt → List Event
  | .nothing => []
  | .block body => run value attached body
  | .seq first second => run value attached first ++ run value attached second
  | .ifNot expression body =>
      Event.evaluated expression :: (if value then [] else run value attached body)
  | .ifDebugger body =>
      Event.debuggerQueried :: (if attached then run value attached body else [])
  | .logAssertion file line => [Event.logAssertion file line]
  | .fatal_error text => [Event.fatal_error text]
  | .breakDebugger backend => [Event.breakDebugger backend]
  | .analyzerNoreturn .noTokens => []
  | .analyzerNoreturn hook => [Event.analyzerNoreturn hook]
  | .outputDebugString dbgtext => [Event.outputDebugString dbgtext]

/-! ## Lines 29-129: debugging and assertion names -/

/-- Lines 29-34: `BEAST_DEBUG` as the rest of the header sees it.  When
`BEAST_FORCE_DEBUG` is defined, the `BEAST_DEBUG` of the includer is undefined,
and it is defined again as 1 when `BEAST_FORCE_DEBUG` is not zero. -/
def BEAST_DEBUG (c : Predefined) : Flag :=
  match c.BEAST_FORCE_DEBUG with
  | none => c.BEAST_DEBUG
  | some v => if ppIf (some v) then some 1 else none

/-- Lines 48-52: `beast_LogCurrentAssertion`, expanded in a file at a line. -/
def beast_LogCurrentAssertion (c : Predefined) (file : String) (line : Nat) : Stmt :=
  if ppIf c.BEAST_LOG_ASSERTIONS || ppIf (BEAST_DEBUG c) then
    Stmt.logAssertion file line
  else
    Stmt.nothing

/-- Lines 54-74: the body `beast_breakDebugger` expands to. -/
def beast_breakDebugger (c : Predefined) : BreakBackend :=
  if ppIf c.BEAST_IOS || ppIf c.BEAST_LINUX || ppIf c.BEAST_ANDROID || ppIf c.BEAST_PPC then
    BreakBackend.kill_SIGTRAP
  else if ppIf c.BEAST_USE_INTRINSICS then
    BreakBackend.debugbreak
  else if ppIf c.BEAST_GCC || ppIf c.BEAST_MAC then
    if ppIf c.BEAST_NO_INLINE_ASM then
      BreakBackend.emptyBody
    else
      BreakBackend.asm_int_dollar_3
  else
    BreakBackend.asm_int_3

/-- Lines 76-85: what `BEAST_ANALYZER_NORETURN` expands to. -/
def BEAST_ANALYZER_NORETURN (c : Predefined) : AnalyzerHook :=
  if ppIf c.BEAST_CLANG && c.__has_feature && !c.BEAST_ANALYZER_NORETURN then
    if c.attribute_analyzer_noreturn then
      AnalyzerHook.beast_assert_noreturn
    else
      AnalyzerHook.noTokens
  else if !c.BEAST_ANALYZER_NORETURN then
    AnalyzerHook.noTokens
  else
    AnalyzerHook.predefined

/-- Line 89: the condition `BEAST_DEBUG || DOXYGEN` that selects the
definitions of lines 91-114 over those of lines 118-127. -/
def debugDefinitions (c : Predefined) : Bool :=
  ppIf (BEAST_DEBUG c) || ppIf c.DOXYGEN

/-- Lines 95 and 120: `DBG(dbgtext)`. -/
def DBG (c : Predefined) (dbgtext : String) : Stmt :=
  if debugDefinitions c then
    Stmt.block (Stmt.outputDebugString dbgtext)
  else
    Stmt.nothing

/-- Lines 101 and 121: `bassertfalse`, expanded in a file at a line. -/
def bassertfalse (c : Predefined) (file : String) (line : Nat) : Stmt :=
  if debugDefinitions c then
    Stmt.block
      (Stmt.seq (beast_LogCurrentAssertion c file line)
        (Stmt.seq Stmt.nothing
          (Stmt.seq (Stmt.ifDebugger (Stmt.breakDebugger (beast_breakDebugger c)))
            (Stmt.seq Stmt.nothing
              (Stmt.analyzerNoreturn (BEAST_ANALYZER_NORETURN c))))))
  else
    Stmt.block (beast_LogCurrentAssertion c file line)

/-- Lines 110-114 and 123-127: `bassert(expression)`, expanded in a file at a
line.  The first alternative of lines 110-114 is under `#if 0`, so line 113
holds the definition in force. -/
def bassert (c : Predefined) (expression : String) (file : String) (line : Nat) : Stmt :=
  if debugDefinitions c then
    Stmt.block (Stmt.ifNot expression (Stmt.fatal_error expression))
  else if ppIf c.BEAST_LOG_ASSERTIONS then
    Stmt.block (Stmt.seq (Stmt.ifNot expression (bassertfalse c file line)) Stmt.nothing)
  else
    Stmt.block Stmt.nothing

/-! ## Lines 204-225: alignment and deprecation attributes -/

/-- Lines 204-211: `BEAST_ALIGN(bytes)`; `bytes` is the token text of the
argument.  The argument is pasted into the attribute as it stands. -/
def BEAST_ALIGN (c : Predefined) (bytes : List String) : List String :=
  if ppIf c.BEAST_MSVC || ppIf c.DOXYGEN then
    ["__declspec", "(", "align", "("] ++ bytes ++ [")", ")"]
  else
    ["__attribute__", "(", "(", "aligned", "("] ++ bytes ++ [")", ")", ")"]

/-- Lines 215-225: `BEAST_DEPRECATED(functionDef)`; `functionDef` is the token
text of the wrapped declaration. -/
def BEAST_DEPRECATED (c : Predefined) (functionDef : List String) : List String :=
  if ppDefined c.DOXYGEN then
    []
  else if ppIf c.BEAST_MSVC && !ppIf c.BEAST_NO_DEPRECATION_WARNINGS then
    ["__declspec", "(", "deprecated", ")"] ++ functionDef
  else if ppIf c.BEAST_GCC && !ppIf c.BEAST_NO_DEPRECATION_WARNINGS then
    functionDef ++ ["__attribute__", "(", "(", "deprecated", ")", ")"]
  else
    functionDef

/-! ## Lines 248-309: C++11 capability detection and keyword fallbacks -/

/-- The five capability names, as they stand at some point of the header. -/
structure Capabilities where
  BEAST_COMPILER_SUPPORTS_NOEXCEPT : Flag
  BEAST_COMPILER_SUPPORTS_NULLPTR : Flag
  BEAST_COMPILER_SUPPORTS_MOVE_SEMANTICS : Flag
  BEAST_COMPILER_SUPPORTS_OVERRIDE_AND_FINAL : Flag
  BEAST_COMPILER_SUPPORTS_ARC : Flag
  deriving DecidableEq, Repr

/-- The capability names before line 250: what the includer defined. -/
def capabilitiesBefore (c : Predefined) : Capabilities :=
  { BEAST_COMPILER_SUPPORTS_NOEXCEPT := c.BEAST_COMPILER_SUPPORTS_NOEXCEPT
    BEAST_COMPILER_SUPPORTS_NULLPTR := c.BEAST_COMPILER_SUPPORTS_NULLPTR
    BEAST_COMPILER_SUPPORTS_MOVE_SEMANTICS := c.BEAST_COMPILER_SUPPORTS_MOVE_SEMANTICS
    BEAST_COMPILER_SUPPORTS_OVERRIDE_AND_FINAL := c.BEAST_COMPILER_SUPPORTS_OVERRIDE_AND_FINAL
    BEAST_COMPILER_SUPPORTS_ARC := c.BEAST_COMPILER_SUPPORTS_ARC }

/-- The number `__GNUC__ * 100 + __GNUC_MINOR__` of lines 250 and 254. -/
def gnucVersion (c : Predefined) : Int :=
  ppValue c.__GNUC__ * 100 + ppValue c.__GNUC_MINOR__

/-- Lines 250-257: detection for GCC in C++0x mode. -/
def detectGCC (c : Predefined) (s : Capabilities) : Capabilities :=
  if c.__GXX_EXPERIMENTAL_CXX0X__ && ppDefined c.__GNUC__ && decide (gnucVersion c ≥ 405) then
    let s1 : Capabilities :=
      { s with
        BEAST_COMPILER_SUPPORTS_NOEXCEPT := some 1
        BEAST_COMPILER_SUPPORTS_NULLPTR := some 1
        BEAST_COMPILER_SUPPORTS_MOVE_SEMANTICS := some 1 }
    if decide (gnucVersion c ≥ 407) && !ppDefined s1.BEAST_COMPILER_SUPPORTS_OVERRIDE_AND_FINAL then
      { s1 with BEAST_COMPILER_SUPPORTS_OVERRIDE_AND_FINAL := some 1 }
    else
      s1
  else
    s

/-- Lines 259-275: detection for Clang through `__has_feature`. -/
def detectClang (c : Predefined) (s : Capabilities) : Capabilities :=
  if ppIf c.BEAST_CLANG && c.__has_feature then
    let s1 : Capabilities :=
      if c.cxx_nullptr then { s with BEAST_COMPILER_SUPPORTS_NULLPTR := some 1 } else s
    let s2 : Capabilities :=
      if c.cxx_noexcept then { s1 with BEAST_COMPILER_SUPPORTS_NOEXCEPT := some 1 } else s1
    let s3 : Capabilities :=
      if c.cxx_rvalue_references then
        { s2 with BEAST_COMPILER_SUPPORTS_MOVE_SEMANTICS := some 1 }
      else s2
    let s4 : Capabilities :=
      if !ppDefined s3.BEAST_COMPILER_SUPPORTS_OVERRIDE_AND_FINAL then
        { s3 with BEAST_COMPILER_SUPPORTS_OVERRIDE_AND_FINAL := some 1 }
      else s3
    if !ppDefined s4.BEAST_COMPILER_SUPPORTS_ARC then
      { s4 with BEAST_COMPILER_SUPPORTS_ARC := some 1 }
    else s4
  else
    s

/-- Lines 277-284: detection for MSVC through `_MSC_VER`. -/
def detectMSVC (c : Predefined) (s : Capabilities) : Capabilities :=
  let s1 : Capabilities :=
    if ppDefined c._MSC_VER && decide (ppValue c._MSC_VER ≥ 1600) then
      { s with
        BEAST_COMPILER_SUPPORTS_NULLPTR := some 1
        BEAST_COMPILER_SUPPORTS_MOVE_SEMANTICS := some 1 }
    else s
  if ppDefined c._MSC_VER && decide (ppValue c._MSC_VER ≥ 1700) then
    { s1 with BEAST_COMPILER_SUPPORTS_OVERRIDE_AND_FINAL := some 1 }
  else s1

/-- The capability names after line 284. -/
def capabilities (c : Predefined) : Capabilities :=
  detectMSVC c (detectClang c (detectGCC c (capabilitiesBefore c)))

/-- What the header does to a keyword in lines 288-309. -/
inductive Keyword where
  /-- The header leaves the keyword as it found it. -/
  | kept
  /-- The header defines the keyword as a name standing for the given tokens. -/
  | replacedBy (tokens : List String)
  deriving DecidableEq, Repr

/-- Lines 289-297: `noexcept`. -/
def noexcept (c : Predefined) : Keyword :=
  if !(ppIf c.DOXYGEN || ppIf (capabilities c).BEAST_COMPILER_SUPPORTS_NOEXCEPT) then
    Keyword.replacedBy ["throw", "(", ")"]
  else
    Keyword.kept

/-- Lines 294-296: whether the header defines `_ALLOW_KEYWORD_MACROS` as 1. -/
def _ALLOW_KEYWORD_MACROS (c : Predefined) : Bool :=
  !(ppIf c.DOXYGEN || ppIf (capabilities c).BEAST_COMPILER_SUPPORTS_NOEXCEPT)
    && (ppDefined c._MSC_VER && decide (ppValue c._MSC_VER > 1600))

/-- Lines 299-304: `nullptr`. -/
def nullptr (c : Predefined) : Keyword :=
  if !(ppIf c.DOXYGEN || ppIf (capabilities c).BEAST_COMPILER_SUPPORTS_NULLPTR) then
    Keyword.replacedBy ["(", "0", ")"]
  else
    Keyword.kept

/-- Lines 306-309: `override`. -/
def override (c : Predefined) : Keyword :=
  if !(ppIf c.DOXYGEN || ppIf (capabilities c).BEAST_COMPILER_SUPPORTS_OVERRIDE_AND_FINAL) then
    Keyword.replacedBy []
  else
    Keyword.kept

/-! ## Assertions: `bassert` -/

/-- C1.  In a build configuration (`DOXYGEN` off) where `BEAST_DEBUG`, as the
header sees it, and `BEAST_LOG_ASSERTIONS` are off, `bassert(e)` is the empty
block of line 126: whatever `e` would evaluate to and whether or not a
debugger is attached, a run evaluates nothing, logs nothing, asks nothing of
the debugger, does not break and calls nothing. -/
theorem bassert_noop_without_debug_logging_doxygen (c : Predefined) (e file : String)
    (line : Nat) (value attached : Bool)
    (hdebug : ppIf (BEAST_DEBUG c) = false)
    (hlog : ppIf c.BEAST_LOG_ASSERTIONS = false)
    (hdoxygen : ppIf c.DOXYGEN = false) :
    bassert c e file line = Stmt.block Stmt.nothing ∧
      run value attached (bassert c e file line) = [] := by
  have hform : bassert c e file line = Stmt.block Stmt.nothing := by
    simp [bassert, debugDefinitions, hdebug, hlog, hdoxygen]
  refine ⟨hform, ?_⟩
  rw [hform]
  rfl

/-- Witness of C1: the configuration that defines nothing. -/
theorem bassert_noop_without_debug_logging_doxygen_witness :
    bassert {} "ok ()" "main.cpp" 12 = Stmt.block Stmt.nothing ∧
      run false true (bassert {} "ok ()" "main.cpp" 12) = [] :=
  bassert_noop_without_debug_logging_doxygen {} "ok ()" "main.cpp" 12 false true
    (by decide) (by decide) (by decide)

/-- C2.  In every configuration, for every expression text, a run of `bassert`
on an expression that evaluates to true does at most one thing, the
evaluation of that expression: no log record, no debugger query, no debugger
break, no call of `fatal_error`, hence nothing that could end the process. -/
theorem bassert_true_has_no_effect (c : Predefined) (x file : String) (line : Nat)
    (attached : Bool) :
    (run true attached (bassert c x file line) = []
        ∨ run true attached (bassert c x file line) = [Event.evaluated x]) ∧
      (∀ f l, Event.logAssertion f l ∉ run true attached (bassert c x file line)) ∧
      Event.debuggerQueried ∉ run true attached (bassert c x file line) ∧
      (∀ b, Event.breakDebugger b ∉ run true attached (bassert c x file line)) ∧
      (∀ text, Event.fatal_error text ∉ run true attached (bassert c x file line)) := by
  cases hd : debugDefinitions c <;> cases hl : ppIf c.BEAST_LOG_ASSERTIONS <;>
    simp [bassert, run, hd, hl]

/-- C3, as amended.  In a debug build a run of `bassert(e)` with `e` false
evaluates `e` and then makes one call, `fatal_error` with the text of `e`.
The expansion itself does not call `beast::logAssertion`, does not ask whether
a debugger is attached and does not reach `beast_breakDebugger`, attached or
not; what becomes of the process is up to `fatal_error`. -/
theorem bassert_debug_false_calls_fatal_error (c : Predefined) (e file : String)
    (line : Nat) (attached : Bool)
    (hdebug : ppIf (BEAST_DEBUG c) = true) :
    run false attached (bassert c e file line)
      = [Event.evaluated e, Event.fatal_error e] := by
  simp [bassert, debugDefinitions, hdebug, run]

/-- Witness of C3 as amended: a debug build with a debugger attached. -/
theorem bassert_debug_false_calls_fatal_error_witness :
    run false true (bassert { BEAST_DEBUG := some 1 } "n > 0" "main.cpp" 12)
      = [Event.evaluated "n > 0", Event.fatal_error "n > 0"] :=
  bassert_debug_false_calls_fatal_error { BEAST_DEBUG := some 1 } "n > 0" "main.cpp" 12 true
    (by decide)

/-- C3 fails as stated: in a debug build with a debugger attached, a failing
`bassert` records no source location (no `beast::logAssertion` call), asks
nothing of the debugger and does not break; it calls `fatal_error`. -/
theorem bassert_debug_does_not_break :
    ppIf (BEAST_DEBUG { BEAST_DEBUG := some 1 }) = true ∧
      Event.logAssertion "main.cpp" 12
        ∉ run false true (bassert { BEAST_DEBUG := some 1 } "n > 0" "main.cpp" 12) ∧
      Event.debuggerQueried
        ∉ run false true (bassert { BEAST_DEBUG := some 1 } "n > 0" "main.cpp" 12) ∧
      Event.breakDebugger (beast_breakDebugger { BEAST_DEBUG := some 1 })
        ∉ run false true (bassert { BEAST_DEBUG := some 1 } "n > 0" "main.cpp" 12) ∧
      Event.fatal_error "n > 0"
        ∈ run false true (bassert { BEAST_DEBUG := some 1 } "n > 0" "main.cpp" 12) := by
  decide

/-- C4.  In a release build that logs assertions (a build configuration, so
`DOXYGEN` off, with `BEAST_DEBUG` off and `BEAST_LOG_ASSERTIONS` on), a run of
`bassert(e)` with `e` false evaluates `e` and makes exactly one call,
`beast::logAssertion` with the file and line of the assertion: no debugger
query, no break, no `fatal_error`. -/
theorem bassert_release_logging_logs_once (c : Predefined) (e file : String)
    (line : Nat) (attached : Bool)
    (hdebug : ppIf (BEAST_DEBUG c) = false)
    (hlog : ppIf c.BEAST_LOG_ASSERTIONS = true)
    (hdoxygen : ppIf c.DOXYGEN = false) :
    run false attached (bassert c e file line)
      = [Event.evaluated e, Event.logAssertion file line] := by
  simp [bassert, bassertfalse, beast_LogCurrentAssertion, debugDefinitions, hdebug, hlog,
    hdoxygen, run]

/-- Witness of C4: a release build that logs assertions. -/
theorem bassert_release_logging_logs_once_witness :
    run false true (bassert { BEAST_LOG_ASSERTIONS := some 1 } "n > 0" "main.cpp" 12)
      = [Event.evaluated "n > 0", Event.logAssertion "main.cpp" 12] :=
  bassert_release_logging_logs_once { BEAST_LOG_ASSERTIONS := some 1 } "n > 0" "main.cpp" 12
    true (by decide) (by decide) (by decide)

/-! ## Assertions: `bassertfalse` and `beast_breakDebugger` -/

/-- C7.  In every build configuration (`DOXYGEN` off) a run of `bassertfalse`
logs the current assertion (its file and line, and no other) exactly when
`BEAST_DEBUG` or `BEAST_LOG_ASSERTIONS` is on; it reaches
`beast_breakDebugger` exactly when `BEAST_DEBUG` is on and
`beast::beast_isRunningUnderDebugger()` returns true; with both flags off it
does nothing; and it never calls `fatal_error`. -/
theorem bassertfalse_logs_and_breaks (c : Predefined) (file : String) (line : Nat)
    (value attached : Bool)
    (hdoxygen : ppIf c.DOXYGEN = false) :
    (Event.logAssertion file line ∈ run value attached (bassertfalse c file line)
        ↔ (ppIf (BEAST_DEBUG c) = true ∨ ppIf c.BEAST_LOG_ASSERTIONS = true)) ∧
      (∀ f l, Event.logAssertion f l ∈ run value attached (bassertfalse c file line)
        → f = file ∧ l = line) ∧
      ((∃ b, Event.breakDebugger b ∈ run value attached (bassertfalse c file line))
        ↔ (ppIf (BEAST_DEBUG c) = true ∧ attached = true)) ∧
      (∀ b, Event.breakDebugger b ∈ run value attached (bassertfalse c file line)
        → b = beast_breakDebugger c) ∧
      (ppIf (BEAST_DEBUG c) = false → ppIf c.BEAST_LOG_ASSERTIONS = false
        → run value attached (bassertfalse c file line) = []) ∧
      (∀ text, Event.fatal_error text ∉ run value attached (bassertfalse c file line)) := by
  cases hd : ppIf (BEAST_DEBUG c) <;> cases hl : ppIf c.BEAST_LOG_ASSERTIONS <;>
    cases attached <;> cases hh : BEAST_ANALYZER_NORETURN c <;>
    simp [bassertfalse, debugDefinitions, beast_LogCurrentAssertion, run, hd, hl, hdoxygen, hh]

/-- Witness of C7: a debug build on Linux with a debugger attached logs the
assertion and reaches the `SIGTRAP` body. -/
theorem bassertfalse_logs_and_breaks_witness :
    (Event.logAssertion "main.cpp" 12
          ∈ run false true
              (bassertfalse { BEAST_DEBUG := some 1, BEAST_LINUX := some 1 } "main.cpp" 12)
        ↔ (ppIf (BEAST_DEBUG { BEAST_DEBUG := some 1, BEAST_LINUX := some 1 }) = true
            ∨ ppIf ({ BEAST_DEBUG := some 1, BEAST_LINUX := some 1 } :
                Predefined).BEAST_LOG_ASSERTIONS = true)) ∧
      (∀ f l, Event.logAssertion f l
          ∈ run false true
              (bassertfalse { BEAST_DEBUG := some 1, BEAST_LINUX := some 1 } "main.cpp" 12)
        → f = "main.cpp" ∧ l = 12) ∧
      ((∃ b, Event.breakDebugger b
          ∈ run false true
              (bassertfalse { BEAST_DEBUG := some 1, BEAST_LINUX := some 1 } "main.cpp" 12))
        ↔ (ppIf (BEAST_DEBUG { BEAST_DEBUG := some 1, BEAST_LINUX := some 1 }) = true
            ∧ true = true)) ∧
      (∀ b, Event.breakDebugger b
          ∈ run false true
              (bassertfalse { BEAST_DEBUG := some 1, BEAST_LINUX := some 1 } "main.cpp" 12)
        → b = beast_breakDebugger { BEAST_DEBUG := some 1, BEAST_LINUX := some 1 }) ∧
      (ppIf (BEAST_DEBUG { BEAST_DEBUG := some 1, BEAST_LINUX := some 1 }) = false
        → ppIf ({ BEAST_DEBUG := some 1, BEAST_LINUX := some 1 } :
            Predefined).BEAST_LOG_ASSERTIONS = false
        → run false true
            (bassertfalse { BEAST_DEBUG := some 1, BEAST_LINUX := some 1 } "main.cpp" 12) = []) ∧
      (∀ text, Event.fatal_error text
          ∉ run false true
              (bassertfalse { BEAST_DEBUG := some 1, BEAST_LINUX := some 1 } "main.cpp" 12)) :=
  bassertfalse_logs_and_breaks { BEAST_DEBUG := some 1, BEAST_LINUX := some 1 } "main.cpp" 12
    false true (by decide)

/-- C8.  Every configuration selects one body for `beast_breakDebugger`, and
which one is decided by priority: the `SIGTRAP` signal exactly when one of
`BEAST_IOS`, `BEAST_LINUX`, `BEAST_ANDROID`, `BEAST_PPC` is on; otherwise the
`__debugbreak` intrinsic exactly when `BEAST_USE_INTRINSICS` is on; otherwise,
when `BEAST_GCC` or `BEAST_MAC` is on, the empty body exactly when
`BEAST_NO_INLINE_ASM` is on and the `int $3` trap exactly when it is off;
otherwise the `__asm int 3` trap. -/
theorem beast_breakDebugger_selection (c : Predefined) :
    (∃! b, beast_breakDebugger c = b) ∧
      (beast_breakDebugger c = BreakBackend.kill_SIGTRAP
        ↔ (ppIf c.BEAST_IOS = true ∨ ppIf c.BEAST_LINUX = true ∨ ppIf c.BEAST_ANDROID = true
            ∨ ppIf c.BEAST_PPC = true)) ∧
      (beast_breakDebugger c = BreakBackend.debugbreak
        ↔ (ppIf c.BEAST_IOS = false ∧ ppIf c.BEAST_LINUX = false ∧ ppIf c.BEAST_ANDROID = false
            ∧ ppIf c.BEAST_PPC = false ∧ ppIf c.BEAST_USE_INTRINSICS = true)) ∧
      (beast_breakDebugger c = BreakBackend.asm_int_dollar_3
        ↔ (ppIf c.BEAST_IOS = false ∧ ppIf c.BEAST_LINUX = false ∧ ppIf c.BEAST_ANDROID = false
            ∧ ppIf c.BEAST_PPC = false ∧ ppIf c.BEAST_USE_INTRINSICS = false
            ∧ (ppIf c.BEAST_GCC = true ∨ ppIf c.BEAST_MAC = true)
            ∧ ppIf c.BEAST_NO_INLINE_ASM = false)) ∧
      (beast_breakDebugger c = BreakBackend.emptyBody
        ↔ (ppIf c.BEAST_IOS = false ∧ ppIf c.BEAST_LINUX = false ∧ ppIf c.BEAST_ANDROID = false
            ∧ ppIf c.BEAST_PPC = false ∧ ppIf c.BEAST_USE_INTRINSICS = false
            ∧ (ppIf c.BEAST_GCC = true ∨ ppIf c.BEAST_MAC = true)
            ∧ ppIf c.BEAST_NO_INLINE_ASM = true)) ∧
      (beast_breakDebugger c = BreakBackend.asm_int_3
        ↔ (ppIf c.BEAST_IOS = false ∧ ppIf c.BEAST_LINUX = false ∧ ppIf c.BEAST_ANDROID = false
            ∧ ppIf c.BEAST_PPC = false ∧ ppIf c.BEAST_USE_INTRINSICS = false
            ∧ ppIf c.BEAST_GCC = false ∧ ppIf c.BEAST_MAC = false)) := by
  refine ⟨⟨beast_breakDebugger c, rfl, fun b hb => hb.symm⟩, ?_⟩
  unfold beast_breakDebugger
  cases ppIf c.BEAST_IOS <;> cases ppIf c.BEAST_LINUX <;> cases ppIf c.BEAST_ANDROID <;>
    cases ppIf c.BEAST_PPC <;> cases ppIf c.BEAST_USE_INTRINSICS <;> cases ppIf c.BEAST_GCC <;>
    cases ppIf c.BEAST_MAC <;> cases ppIf c.BEAST_NO_INLINE_ASM <;> simp

/-! ## The `BEAST_FORCE_DEBUG` override -/

/-- C9.  `BEAST_FORCE_DEBUG` overrides `BEAST_DEBUG`.  When it is defined with
value `v`, the debug mode the header sees is on exactly when `v` is not zero,
whatever `BEAST_DEBUG` was before.  So in a build configuration (`DOXYGEN`
off), with `v = 0` the names take their release forms: `DBG` is blank (line
120), `bassertfalse` is the block of line 121 and `bassert` is the block of
line 124 or of line 126; with `v` not zero they take their debug forms: `DBG`
is the logging block of line 95, `bassertfalse` the block of line 101 and
`bassert` the block of line 113.  In both cases the expansions are those of
the configuration without `BEAST_FORCE_DEBUG` whose `BEAST_DEBUG` is undefined
or 1.  When `BEAST_FORCE_DEBUG` is not defined, `BEAST_DEBUG` is left as the
includer set it. -/
theorem BEAST_FORCE_DEBUG_overrides_BEAST_DEBUG (c : Predefined) (v : Int)
    (e dbgtext file : String) (line : Nat)
    (hdoxygen : ppIf c.DOXYGEN = false) :
    ppIf (BEAST_DEBUG { c with BEAST_FORCE_DEBUG := some v }) = decide (v ≠ 0) ∧
      (v = 0 →
        DBG { c with BEAST_FORCE_DEBUG := some v } dbgtext = Stmt.nothing ∧
        bassertfalse { c with BEAST_FORCE_DEBUG := some v } file line
          = Stmt.block
              (if ppIf c.BEAST_LOG_ASSERTIONS then Stmt.logAssertion file line
               else Stmt.nothing) ∧
        bassert { c with BEAST_FORCE_DEBUG := some v } e file line
          = (if ppIf c.BEAST_LOG_ASSERTIONS then
               Stmt.block
                 (Stmt.seq (Stmt.ifNot e (Stmt.block (Stmt.logAssertion file line)))
                   Stmt.nothing)
             else Stmt.block Stmt.nothing)) ∧
      (v ≠ 0 →
        DBG { c with BEAST_FORCE_DEBUG := some v } dbgtext
          = Stmt.block (Stmt.outputDebugString dbgtext) ∧
        bassertfalse { c with BEAST_FORCE_DEBUG := some v } file line
          = Stmt.block
              (Stmt.seq (Stmt.logAssertion file line)
                (Stmt.seq Stmt.nothing
                  (Stmt.seq (Stmt.ifDebugger (Stmt.breakDebugger (beast_breakDebugger c)))
                    (Stmt.seq Stmt.nothing
                      (Stmt.analyzerNoreturn (BEAST_ANALYZER_NORETURN c)))))) ∧
        bassert { c with BEAST_FORCE_DEBUG := some v } e file line
          = Stmt.block (Stmt.ifNot e (Stmt.fatal_error e))) ∧
      bassert { c with BEAST_FORCE_DEBUG := some v } e file line
        = bassert { c with BEAST_FORCE_DEBUG := none,
                           BEAST_DEBUG := if v ≠ 0 then some 1 else none } e file line ∧
      bassertfalse { c with BEAST_FORCE_DEBUG := some v } file line
        = bassertfalse { c with BEAST_FORCE_DEBUG := none,
                                BEAST_DEBUG := if v ≠ 0 then some 1 else none } file line ∧
      DBG { c with BEAST_FORCE_DEBUG := some v } dbgtext
        = DBG { c with BEAST_FORCE_DEBUG := none,
                       BEAST_DEBUG := if v ≠ 0 then some 1 else none } dbgtext ∧
      BEAST_DEBUG { c with BEAST_FORCE_DEBUG := none } = c.BEAST_DEBUG := by
  have hflag : BEAST_DEBUG { c with BEAST_FORCE_DEBUG := some v }
      = BEAST_DEBUG { c with BEAST_FORCE_DEBUG := none,
                             BEAST_DEBUG := if v ≠ 0 then some 1 else none } := by
    by_cases hv : v = 0 <;> simp [BEAST_DEBUG, ppIf, ppValue, hv]
  have hmode : ppIf (BEAST_DEBUG { c with BEAST_FORCE_DEBUG := some v }) = decide (v ≠ 0) := by
    by_cases hv : v = 0 <;> simp [BEAST_DEBUG, ppIf, ppValue, hv]
  refine ⟨hmode, ?_, ?_, ?_, ?_, ?_, ?_⟩
  · intro hv
    have hoff : ppIf (BEAST_DEBUG { c with BEAST_FORCE_DEBUG := some v }) = false := by
      rw [hmode]; simp [hv]
    cases hl : ppIf c.BEAST_LOG_ASSERTIONS <;>
      simp [DBG, bassert, bassertfalse, debugDefinitions, beast_LogCurrentAssertion, hoff,
        hdoxygen, hl]
  · intro hv
    have hon : ppIf (BEAST_DEBUG { c with BEAST_FORCE_DEBUG := some v }) = true := by
      rw [hmode]; simp [hv]
    simp [DBG, bassert, bassertfalse, debugDefinitions, beast_LogCurrentAssertion, hon,
      beast_breakDebugger, BEAST_ANALYZER_NORETURN]
  · simp only [bassert, bassertfalse, debugDefinitions, beast_LogCurrentAssertion,
      beast_breakDebugger, BEAST_ANALYZER_NORETURN, hflag]
  · simp only [bassertfalse, debugDefinitions, beast_LogCurrentAssertion,
      beast_breakDebugger, BEAST_ANALYZER_NORETURN, hflag]
  · simp only [DBG, debugDefinitions, hflag]
  · rfl

/-- Witness of C9: a debug build (`BEAST_DEBUG` 1) given `BEAST_FORCE_DEBUG` 0
has the blank `DBG` and the empty `bassert` of a release build; a release
build given `BEAST_FORCE_DEBUG` 1 has the logging `DBG` and the `bassert` of
line 113. -/
theorem BEAST_FORCE_DEBUG_overrides_BEAST_DEBUG_witness :
    (ppIf (BEAST_DEBUG { BEAST_DEBUG := some 1, BEAST_FORCE_DEBUG := some 0 }) = false ∧
        DBG { BEAST_DEBUG := some 1, BEAST_FORCE_DEBUG := some 0 } "x" = Stmt.nothing ∧
        bassert { BEAST_DEBUG := some 1, BEAST_FORCE_DEBUG := some 0 } "n > 0" "main.cpp" 12
          = Stmt.block Stmt.nothing) ∧
      (ppIf (BEAST_DEBUG { BEAST_FORCE_DEBUG := some 1 }) = true ∧
        DBG { BEAST_FORCE_DEBUG := some 1 } "x" = Stmt.block (Stmt.outputDebugString "x") ∧
        bassert { BEAST_FORCE_DEBUG := some 1 } "n > 0" "main.cpp" 12
          = Stmt.block (Stmt.ifNot "n > 0" (Stmt.fatal_error "n > 0"))) :=
  have h0 := BEAST_FORCE_DEBUG_overrides_BEAST_DEBUG { BEAST_DEBUG := some 1 } 0
    "n > 0" "x" "main.cpp" 12 (by decide)
  have h1 := BEAST_FORCE_DEBUG_overrides_BEAST_DEBUG {} 1
    "n > 0" "x" "main.cpp" 12 (by decide)
  ⟨⟨h0.1, (h0.2.1 rfl).1, (h0.2.1 rfl).2.2⟩,
    ⟨h1.1, (h1.2.2.1 (by decide)).1, (h1.2.2.1 (by decide)).2.2⟩⟩

/-! ## Attributes: `BEAST_DEPRECATED` -/

/-- C5.  In every build configuration (`DOXYGEN` not defined) and for every
declaration `d`, `BEAST_DEPRECATED(d)` is `d` itself, or `d` with
`__declspec(deprecated)` put before it, or `d` with
`__attribute__ ((deprecated))` put after it; and when
`BEAST_NO_DEPRECATION_WARNINGS` is set it is exactly `d`. -/
theorem BEAST_DEPRECATED_keeps_declaration (c : Predefined) (d : List String)
    (hdoxygen : c.DOXYGEN = none) :
    (BEAST_DEPRECATED c d = d
        ∨ BEAST_DEPRECATED c d = ["__declspec", "(", "deprecated", ")"] ++ d
        ∨ BEAST_DEPRECATED c d = d ++ ["__attribute__", "(", "(", "deprecated", ")", ")"]) ∧
      (ppIf c.BEAST_NO_DEPRECATION_WARNINGS = true → BEAST_DEPRECATED c d = d) := by
  unfold BEAST_DEPRECATED
  cases ppIf c.BEAST_MSVC <;> cases ppIf c.BEAST_GCC <;>
    cases ppIf c.BEAST_NO_DEPRECATION_WARNINGS <;> simp [ppDefined, hdoxygen]

/-- Witness of C5: a GCC build wrapping the declaration `void f ();`. -/
theorem BEAST_DEPRECATED_keeps_declaration_witness :
    (BEAST_DEPRECATED { BEAST_GCC := some 1 } ["void", "f", "(", ")", ";"]
          = ["void", "f", "(", ")", ";"]
        ∨ BEAST_DEPRECATED { BEAST_GCC := some 1 } ["void", "f", "(", ")", ";"]
          = ["__declspec", "(", "deprecated", ")"] ++ ["void", "f", "(", ")", ";"]
        ∨ BEAST_DEPRECATED { BEAST_GCC := some 1 } ["void", "f", "(", ")", ";"]
          = ["void", "f", "(", ")", ";"] ++ ["__attribute__", "(", "(", "deprecated", ")", ")"]) ∧
      (ppIf ({ BEAST_GCC := some 1 } : Predefined).BEAST_NO_DEPRECATION_WARNINGS = true
        → BEAST_DEPRECATED { BEAST_GCC := some 1 } ["void", "f", "(", ")", ";"]
          = ["void", "f", "(", ")", ";"]) :=
  BEAST_DEPRECATED_keeps_declaration { BEAST_GCC := some 1 } ["void", "f", "(", ")", ";"] rfl

/-! ## C++11 keyword fallbacks on MSVC -/

/-- C10.  On an MSVC toolchain with `_MSC_VER` equal to `v` (no Clang feature
detection, no GCC C++0x detection, no capability name defined beforehand,
`DOXYGEN` off): `nullptr` is replaced by `(0)` exactly when `v < 1600`,
`override` is erased exactly when `v < 1700`, and `noexcept` is replaced by
`throw()` for every `v`; so a version that keeps `override` keeps `nullptr`. -/
theorem msvc_keyword_fallbacks (c : Predefined) (v : Int)
    (hmsvc : c._MSC_VER = some v)
    (hclang : (ppIf c.BEAST_CLANG && c.__has_feature) = false)
    (hgcc : (c.__GXX_EXPERIMENTAL_CXX0X__ && ppDefined c.__GNUC__
      && decide (gnucVersion c ≥ 405)) = false)
    (hnone : capabilitiesBefore c = ⟨none, none, none, none, none⟩)
    (hdoxygen : ppIf c.DOXYGEN = false) :
    (nullptr c = Keyword.replacedBy ["(", "0", ")"] ↔ v < 1600) ∧
      (nullptr c = Keyword.kept ↔ 1600 ≤ v) ∧
      (override c = Keyword.replacedBy [] ↔ v < 1700) ∧
      (override c = Keyword.kept ↔ 1700 ≤ v) ∧
      noexcept c = Keyword.replacedBy ["throw", "(", ")"] ∧
      (override c = Keyword.kept → nullptr c = Keyword.kept) := by
  have hcaps : capabilities c
      = detectMSVC c ⟨none, none, none, none, none⟩ := by
    simp only [capabilities, detectClang, detectGCC, hclang, hgcc, hnone]
    simp
  have hoff : ppIf (none : Flag) = false := rfl
  have hon : ppIf (some 1 : Flag) = true := rfl
  by_cases h16 : 1600 ≤ v <;> by_cases h17 : 1700 ≤ v <;>
    simp [nullptr, override, noexcept, hcaps, detectMSVC, hmsvc, hdoxygen, ppDefined, ppValue,
      hoff, hon, h16, h17] <;> omega

/-- Witness of C10: Visual Studio 2010 (`_MSC_VER` 1600) keeps `nullptr`,
erases `override` and replaces `noexcept`. -/
theorem msvc_keyword_fallbacks_witness :
    (nullptr { _MSC_VER := some 1600 } = Keyword.replacedBy ["(", "0", ")"] ↔ (1600 : Int) < 1600) ∧
      (nullptr { _MSC_VER := some 1600 } = Keyword.kept ↔ (1600 : Int) ≤ 1600) ∧
      (override { _MSC_VER := some 1600 } = Keyword.replacedBy [] ↔ (1600 : Int) < 1700) ∧
      (override { _MSC_VER := some 1600 } = Keyword.kept ↔ (1700 : Int) ≤ 1600) ∧
      noexcept { _MSC_VER := some 1600 } = Keyword.replacedBy ["throw", "(", ")"] ∧
      (override { _MSC_VER := some 1600 } = Keyword.kept
        → nullptr { _MSC_VER := some 1600 } = Keyword.kept) :=
  msvc_keyword_fallbacks { _MSC_VER := some 1600 } 1600 rfl (by decide) (by decide) (by decide)
    (by decide)

end PlatformDefs
